import Mathlib

/-!
Verification of the llgo SSA lowering layer (`ssa/package.go`) and the build
driver (`internal/build`): a shallow embedding of the Program / Package state
machine, the type-lowering cache, the closure-stub factory and the Python
foreign-call bridge, together with theorems about the claims of the
specification.

Conventions of the embedding:
* Go pointers to `types.Package` are modelled as `Nat` handles; a nil pointer
  is `Option.none`.
* Go maps are modelled as association lists (`assocFind` mirrors a map read,
  cons mirrors a map write).
* Mutation of the shared `aProgram` / `aPackage` records is modelled by
  explicit state passing.
* Go panics (nil function invocation, `panic("todo")`, index out of range)
  are modelled by `Except Err`.
* Ghost fields (`rtGetCalls`, `pyGetCalls`, `ctorCalls`) count supplier and
  constructor invocations; they exist only to *state* at-most-once
  properties and are never read by the embedded code.
-/

set_option autoImplicit false

/-- Association-list lookup, mirroring a Go map read (`v, ok := m[k]`). -/
def assocFind {α β : Type} [DecidableEq α] : List (α × β) → α → Option β
  | [], _ => none
  | (a, b) :: t, k => if a = k then some b else assocFind t k

theorem assocFind_cons_self {α β : Type} [DecidableEq α] (a : α) (b : β)
    (l : List (α × β)) : assocFind ((a, b) :: l) a = some b := by
  simp [assocFind]

theorem assocFind_cons_ne {α β : Type} [DecidableEq α] (a k : α) (b : β)
    (l : List (α × β)) (h : a ≠ k) :
    assocFind ((a, b) :: l) k = assocFind l k := by
  simp [assocFind, h]

/-- Source-language types (`go/types`), up to the structure the embedded code
inspects: basic kinds, pointers, and named types looked up in a support
package's scope (the package handle plus the name identifies the type). -/
inductive GoType where
  | basic (kind : Nat)
  | ptr (elem : GoType)
  | named (pkgHandle : Nat) (name : String)
deriving DecidableEq

/-- `go/types` basic-kind numbers used by the embedded code. -/
def invalidK : Nat := 0
def boolK : Nat := 1
def intK : Nat := 2
def int8K : Nat := 3
def stringK : Nat := 17
def unsafePointerK : Nat := 18

/-- A lowered `Type` value: the identity (`tid`, standing for the address of
the `aType` allocation) paired with the originating source type (`raw`). -/
structure TypeV where
  tid : Nat
  raw : GoType
deriving DecidableEq

/-- A `*types.Signature`: parameter and result type tuples. -/
structure Sig where
  params : List GoType
  results : List GoType
deriving DecidableEq

/-- A closure value handed to `closureStub`: its LLVM name (`v.impl.Name()`)
and its source signature (`v.raw.Type.(*types.Signature)`). -/
structure Closure where
  name : String
  sig : Sig
deriving DecidableEq

/-- LLVM linkage, as far as the embedded code sets it. `defaultLink` stands
for the default linkage of a fresh declaration. -/
inductive Linkage where
  | defaultLink
  | linkOnceAny
deriving DecidableEq

/-- How a generated stub body returns: `CreateRetVoid` or `CreateRet` of the
forwarded call's value. -/
inductive RetKind where
  | retVoid
  | retVal
deriving DecidableEq

/-- The body built for a closure stub: the stub-parameter indices forwarded
to the original closure (`fn.Param(i+1)` for `i < N`), the tail-call mark,
and the return shape. -/
structure BodyInfo where
  argIdx : List Nat
  tailCall : Bool
  ret : RetKind
deriving DecidableEq

/-- A function object in the module (the target of a `Function` pointer). -/
structure FnObj where
  fname : String
  sig : Sig
  linkage : Linkage
  body : Option BodyInfo
deriving DecidableEq

/-- Kind of a module-level definition, tagged by the emitting table. -/
inductive DefKind where
  | globalDef
  | funcDef
deriving DecidableEq

/-- Go panics reachable in the embedded code. -/
inductive Err where
  | nilFuncPanic
  | todoPanic
  | indexPanic
deriving DecidableEq

/-- The dynamic type of the `any` argument of `SetPython` / `SetRuntime`:
a pre-resolved `*types.Package`, a supplier `func() *types.Package`, or any
other dynamic type (matched by no case of the Go type switch). -/
inductive AnyVal where
  | pkgV (h : Nat)
  | supplierV (f : Unit → Nat)
  | otherV (tag : Nat)

/-- `aProgram` (ssa/package.go): the lowering cache (`typs`), the lazy
support-package slots, the nil-sentinel type caches the claims touch, the
cached bridge signatures and the two flags. Cached type fields of the source
not exercised by any claim (`intTy`, `stringTy`, …) follow the same
nil-sentinel pattern as `boolTy` and are omitted. `rtGetCalls` / `pyGetCalls`
are ghost counters of supplier invocations. -/
structure AProgram where
  typs : List (GoType × TypeV)
  nextTid : Nat
  rt : Option Nat
  rtget : Option (Unit → Nat)
  py : Option Nat
  pyget : Option (Unit → Nat)
  boolTy : Option TypeV
  voidPtr : Option TypeV
  pyObjPtr : Option TypeV
  callNoArg : Option Sig
  callOneArg : Option Sig
  needRuntime : Bool
  needPyInit : Bool
  rtGetCalls : Nat
  pyGetCalls : Nat

/-- `NewProgram`: fresh caches, unresolved support slots, clear flags (the
LLVM context and target data are external and not modelled). -/
def NewProgram : AProgram :=
  { typs := [], nextTid := 0, rt := none, rtget := none, py := none,
    pyget := none, boolTy := none, voidPtr := none, pyObjPtr := none,
    callNoArg := none, callOneArg := none, needRuntime := false,
    needPyInit := false, rtGetCalls := 0, pyGetCalls := 0 }

/-- `Program.SetPython`: a type switch on the `any` argument; a
`*types.Package` fills `py`, a supplier fills `pyget`, anything else matches
no case and the program is left unchanged. -/
def SetPython (p : AProgram) (v : AnyVal) : AProgram :=
  match v with
  | .pkgV h => { p with py := some h }
  | .supplierV f => { p with pyget := some f }
  | .otherV _ => p

/-- `Program.SetRuntime`: same type switch for the runtime slot. -/
def SetRuntime (p : AProgram) (v : AnyVal) : AProgram :=
  match v with
  | .pkgV h => { p with rt := some h }
  | .supplierV f => { p with rtget := some f }
  | .otherV _ => p

/-- `Program.runtime`: resolve the runtime-support package. If `rt` is nil,
invoke the supplier (a nil supplier is a Go nil-function panic); then mark
`needRuntime` and return the handle. -/
def runtime (p : AProgram) : Except Err (AProgram × Nat) :=
  match p.rt with
  | some h => .ok ({ p with needRuntime := true }, h)
  | none =>
    match p.rtget with
    | none => .error .nilFuncPanic
    | some f =>
      .ok ({ p with rt := some (f ()), needRuntime := true,
                    rtGetCalls := p.rtGetCalls + 1 }, f ())

/-- `Program.python`: resolve the foreign-interop support package. Unlike
`runtime`, it touches no flag. -/
def python (p : AProgram) : Except Err (AProgram × Nat) :=
  match p.py with
  | some h => .ok (p, h)
  | none =>
    match p.pyget with
    | none => .error .nilFuncPanic
    | some f =>
      .ok ({ p with py := some (f ()), pyGetCalls := p.pyGetCalls + 1 }, f ())

/-- Modelled from the spec: `Program.rawType` (ssa/type.go) is not under
src/; §4.1 specifies it as the memoized lowering — on the first request for a
source type compute the lowering, store it keyed by the source type's
identity (the `typs` map of `aProgram`, which is under src/), and on every
later request for an identity-equal source type return the cached `Type`
without recomputation. A fresh lowering allocates a fresh identity. -/
def rawType (p : AProgram) (t : GoType) : AProgram × TypeV :=
  match assocFind p.typs t with
  | some tv => (p, tv)
  | none =>
    let tv : TypeV := ⟨p.nextTid, t⟩
    ({ p with typs := (t, tv) :: p.typs, nextTid := p.nextTid + 1 }, tv)

/-- `Program.Bool`: nil-sentinel cache over `rawType(types.Typ[types.Bool])`. -/
def BoolType (p : AProgram) : AProgram × TypeV :=
  match p.boolTy with
  | some tv => (p, tv)
  | none =>
    let r := rawType p (.basic boolK)
    ({ r.1 with boolTy := some r.2 }, r.2)

/-- `Program.VoidPtr`: nil-sentinel cache over
`rawType(types.Typ[types.UnsafePointer])`. -/
def VoidPtr (p : AProgram) : AProgram × TypeV :=
  match p.voidPtr with
  | some tv => (p, tv)
  | none =>
    let r := rawType p (.basic unsafePointerK)
    ({ r.1 with voidPtr := some r.2 }, r.2)

/-- `Program.PyObjectPtr`: nil-sentinel cache over the lowering of
`*py.Object`, where `py` is the resolved foreign-interop package
(`pyNamed("Object")` looks the named type up in its scope). -/
def PyObjectPtr (p : AProgram) : Except Err (AProgram × TypeV) :=
  match p.pyObjPtr with
  | some tv => .ok (p, tv)
  | none =>
    match python p with
    | .error e => .error e
    | .ok (p1, h) =>
      let r := rawType p1 (.ptr (.named h "Object"))
      .ok ({ r.1 with pyObjPtr := some r.2 }, r.2)

/-- `Program.tyCallNoArg`: cached signature `(objPtr) -> (objPtr)` of the
no-argument foreign-call thunk (params and results are the same tuple in the
source). -/
def tyCallNoArg (p : AProgram) : Except Err (AProgram × Sig) :=
  match p.callNoArg with
  | some s => .ok (p, s)
  | none =>
    match PyObjectPtr p with
    | .error e => .error e
    | .ok (p1, tv) =>
      let s : Sig := ⟨[tv.raw], [tv.raw]⟩
      .ok ({ p1 with callNoArg := some s }, s)

/-- `Program.tyCallOneArg`: cached signature `(objPtr, objPtr) -> (objPtr)`
of the one-argument foreign-call thunk. -/
def tyCallOneArg (p : AProgram) : Except Err (AProgram × Sig) :=
  match p.callOneArg with
  | some s => .ok (p, s)
  | none =>
    match PyObjectPtr p with
    | .error e => .error e
    | .ok (p1, tv) =>
      let s : Sig := ⟨[tv.raw, tv.raw], [tv.raw]⟩
      .ok ({ p1 with callOneArg := some s }, s)

/-- `aPackage` (ssa/package.go): the module's emitted definitions
(`modDefs`, tagged by the emitting table kind, in emission order), the
function-object heap (`heap`, keyed by the identity of the `Function`
allocation), the four name-keyed symbol tables (`vars`, `fns`, `stubs`,
`pyfns`) and the owning Program. `nextId` allocates fresh identities;
`ctorCalls` is a ghost counter of constructor (fresh-entry) invocations. -/
structure APackage where
  modDefs : List (DefKind × String)
  heap : List (Nat × FnObj)
  vars : List (String × Nat)
  fns : List (String × Nat)
  stubs : List (String × Nat)
  pyfns : List (String × Nat)
  prog : AProgram
  nextId : Nat
  ctorCalls : Nat

/-- `Program.NewPackage`: a fresh module with fresh empty tables; resets the
`needRuntime` flag of the owning Program (and only that flag). -/
def NewPackage (p : AProgram) : APackage :=
  { modDefs := [], heap := [], vars := [], fns := [], stubs := [],
    pyfns := [], prog := { p with needRuntime := false }, nextId := 0,
    ctorCalls := 0 }

/-- Modelled from the spec: `Package.NewFunc` is not under src/ (only its
callers `rtFunc`, `pyFunc` and `closureStub` are); §4.3 specifies it as
`getOrCreate` on the `fns` table — if the name exists return the existing
entry without invoking the constructor, otherwise construct a fresh function
object, emit its module definition, store it and return it. -/
def NewFunc (pk : APackage) (name : String) (sig : Sig) : APackage × Nat :=
  match assocFind pk.fns name with
  | some fid => (pk, fid)
  | none =>
    let fid := pk.nextId
    let fo : FnObj := ⟨name, sig, .defaultLink, none⟩
    ({ pk with heap := (fid, fo) :: pk.heap,
               fns := (name, fid) :: pk.fns,
               modDefs := pk.modDefs ++ [(.funcDef, name)],
               nextId := fid + 1,
               ctorCalls := pk.ctorCalls + 1 }, fid)

/-- Modelled from the spec: `Package.NewVar` is not under src/ (only its
caller `NewPyModVar` is); §4.3 specifies it as `getOrCreate` on the `vars`
table, emitting at most one global definition per name. -/
def NewVar (pk : APackage) (name : String) : APackage × Nat :=
  match assocFind pk.vars name with
  | some vid => (pk, vid)
  | none =>
    let vid := pk.nextId
    ({ pk with vars := (name, vid) :: pk.vars,
               modDefs := pk.modDefs ++ [(.globalDef, name)],
               nextId := vid + 1,
               ctorCalls := pk.ctorCalls + 1 }, vid)

/-- `Package.pyFunc`: marks `needPyInit` on the owning Program, then declares
the foreign function through `NewFunc`. -/
def pyFunc (pk : APackage) (fullName : String) (sig : Sig) : APackage × Nat :=
  NewFunc { pk with prog := { pk.prog with needPyInit := true } } fullName sig

/-- `ClosureCtx` parameter type: `types.Typ[types.UnsafePointer]`. -/
def ctxParamTy : GoType := .basic unsafePointerK

/-- Modelled from the spec: the `ClosureStub` name-prefix constant is not
under src/; §4.4 says the stub's name is derived from the closure's own name
with a fixed prefix. -/
def ClosureStub : String := "__llgo_stub."

/-- Modelled from the spec: `FuncAddCtx` is not under src/. §4.4 says the
stub signature is the closure's signature plus exactly one opaque context
parameter; the in-src caller `closureStub` forwards `fn.Param(i+1)` for
`i < N` as the N arguments of the original closure, which fixes the added
context parameter at index 0 — the context is prepended, the original
parameters shift to indices 1..N. -/
def FuncAddCtx (ctx : GoType) (sig : Sig) : Sig :=
  ⟨ctx :: sig.params, sig.results⟩

/-- In-place update of a function object on the heap (`fn.impl.SetLinkage`,
`fn.MakeBody` + the body-building calls mutate the pointed-to function). -/
def setHeap (h : List (Nat × FnObj)) (fid : Nat) (f : FnObj → FnObj) :
    List (Nat × FnObj) :=
  h.map fun e => if e.1 = fid then (e.1, f e.2) else e

/-- `Package.closureStub`: look the closure's name up in the `stubs` table;
on a miss build the context-augmented stub (link-once linkage, body
tail-calling the original closure with the stub parameters `1..N`, returning
void for zero results and the call's value otherwise) and register it. The
result is the function used for the returned aggregate value
`{stub, nil}`; evaluation order of the source is kept (`VoidPtr` for the
nil value first, `rawType t` for the aggregate's type last). -/
def closureStub (pk : APackage) (t : GoType) (v : Closure) :
    APackage × Nat :=
  let pk1 : APackage := { pk with prog := (VoidPtr pk.prog).1 }
  match assocFind pk1.stubs v.name with
  | some fid =>
    ({ pk1 with prog := (rawType pk1.prog t).1 }, fid)
  | none =>
    let n := v.sig.params.length
    let nret := v.sig.results.length
    let sig2 := FuncAddCtx ctxParamTy v.sig
    let r := NewFunc pk1 (ClosureStub ++ v.name) sig2
    let body : BodyInfo :=
      ⟨(List.range n).map (· + 1), true,
       if nret = 0 then .retVoid else .retVal⟩
    let pk2 : APackage :=
      { r.1 with heap := setHeap r.1.heap r.2
                   (fun fo => { fo with linkage := .linkOnceAny,
                                        body := some body }),
                 stubs := (v.name, r.2) :: r.1.stubs }
    ({ pk2 with prog := (rawType pk2.prog t).1 }, r.2)

/-- `Builder.pyCall`: dispatch on the callee signature's parameter count;
0 and 1 route through the dedicated lazily-declared thunks
(`PyObject_CallNoArg` / `PyObject_CallOneArg`), any other count is
`panic("todo")`. The returned `Nat` is the identity of the thunk function
the built call applies (the call expression itself is constructed by the
external `Builder.Call`). -/
def pyCall (pk : APackage) (fnSig : Sig) (args : List Nat) :
    Except Err (APackage × Nat) :=
  match fnSig.params.length with
  | 0 =>
    match tyCallNoArg pk.prog with
    | .error e => .error e
    | .ok (p1, s) =>
      let r := pyFunc { pk with prog := p1 } "PyObject_CallNoArg" s
      .ok (r.1, r.2)
  | 1 =>
    match tyCallOneArg pk.prog with
    | .error e => .error e
    | .ok (p1, s) =>
      let r := pyFunc { pk with prog := p1 } "PyObject_CallOneArg" s
      match args with
      | [] => .error .indexPanic
      | _ :: _ => .ok (r.1, r.2)
  | _ + 2 => .error .todoPanic

/-- Build modes of the driver (`internal/build`). -/
inductive Mode where
  | modeBuild
  | modeInstall
  | modeRun
deriving DecidableEq, BEq

/-- `needLLFile`: every mode except plain build emits per-package `.ll`
files. -/
def needLLFile (mode : Mode) : Bool :=
  mode != Mode.modeBuild

/-- The mode-resolution step of `Do`: a requested build mode with exactly
one loaded root package is promoted to install. `numRootPkgs` is
`len(initial)`, the number of root packages the external loader produced
for the requested patterns. -/
def effectiveMode (mode : Mode) (numRootPkgs : Nat) : Mode :=
  if mode == Mode.modeBuild && numRootPkgs == 1 then .modeInstall else mode

/-- Whether `buildPkg` writes the package's `.ll` file: the pseudo-package
`unsafe` is skipped unconditionally, everything else is written exactly when
`needLLFile` holds. -/
def buildPkgWritesLL (pkgPath : String) (mode : Mode) : Bool :=
  if pkgPath == "unsafe" then false else needLLFile mode

/-!  Helper lemmas about the Program-level caches. -/

theorem rawType_stable (p : AProgram) (t : GoType) :
    rawType (rawType p t).1 t = rawType p t := by
  cases h : assocFind p.typs t with
  | some tv => simp [rawType, h]
  | none => simp [rawType, h, assocFind]

theorem rawType_voidPtr (p : AProgram) (t : GoType) :
    ((rawType p t).1).voidPtr = p.voidPtr := by
  cases h : assocFind p.typs t <;> simp [rawType, h]

theorem rawType_flags (p : AProgram) (t : GoType) :
    ((rawType p t).1).needRuntime = p.needRuntime ∧
    ((rawType p t).1).needPyInit = p.needPyInit := by
  cases h : assocFind p.typs t <;> simp [rawType, h]

theorem BoolType_stable (p : AProgram) :
    BoolType (BoolType p).1 = BoolType p := by
  cases h : p.boolTy with
  | some tv => simp [BoolType, h]
  | none => simp [BoolType, h]

theorem VoidPtr_of_some (p : AProgram) (tv : TypeV) (h : p.voidPtr = some tv) :
    VoidPtr p = (p, tv) := by
  simp [VoidPtr, h]

theorem VoidPtr_self (p : AProgram) :
    ((VoidPtr p).1).voidPtr = some (VoidPtr p).2 := by
  cases h : p.voidPtr <;> simp [VoidPtr, h]

theorem VoidPtr_stable (p : AProgram) : VoidPtr (VoidPtr p).1 = VoidPtr p := by
  cases h : p.voidPtr with
  | some tv => simp [VoidPtr, h]
  | none => simp [VoidPtr, h]

/-- `q` evaluated on a successful result; a panic makes the property
vacuous (the surrounding run aborts). -/
def onOkP {α : Type} (r : Except Err (α × Nat)) (q : α → Nat → Prop) : Prop :=
  match r with
  | .ok (x, n) => q x n
  | .error _ => True

/-- C1: for every source type T, two lowering requests for T within one
Program return the identical Type value: the first request caches the
lowering keyed by T's identity and the second returns the cached Type
without recomputation (the whole Program state, including the fresh-identity
counter, is unchanged by the second request); likewise for the cached
`Program.Bool` accessor. -/
theorem typeLowering_identity :
    (∀ (p : AProgram) (t : GoType), rawType (rawType p t).1 t = rawType p t) ∧
    (∀ p : AProgram, BoolType (BoolType p).1 = BoolType p) :=
  ⟨rawType_stable, BoolType_stable⟩

/-- The Program state after `runtime` resolves the slot through the
supplier `f`. -/
def resolvedRt (p : AProgram) (f : Unit → Nat) : AProgram :=
  { p with rt := some (f ()), needRuntime := true,
           rtGetCalls := p.rtGetCalls + 1 }

/-- C7: `Program.runtime` returns the already-resolved handle when present;
otherwise it invokes the supplier exactly once (the ghost counter
`rtGetCalls` increases by one), caches the result so that a second
resolution returns the cached handle with the state — including the
invocation counter — unchanged, marks `needRuntime`, and returns the
handle; with neither a handle nor a supplier it is a nil-function panic. -/
theorem runtime_resolution (p : AProgram) :
    match p.rt, p.rtget with
    | some h, _ => runtime p = .ok ({ p with needRuntime := true }, h)
    | none, some f =>
        runtime p = .ok (resolvedRt p f, f ()) ∧
        runtime (resolvedRt p f) = .ok (resolvedRt p f, f ())
    | none, none => runtime p = .error .nilFuncPanic := by
  cases hrt : p.rt with
  | some h => simp [runtime, hrt]
  | none =>
    cases hrg : p.rtget with
    | some f => simp [runtime, hrt, hrg, resolvedRt]
    | none => simp [runtime, hrt, hrg]

theorem pyFunc_prog_needPyInit (pk : APackage) (name : String) (sig : Sig) :
    ((pyFunc pk name sig).1).prog.needPyInit = true := by
  unfold pyFunc
  cases h : assocFind pk.fns name <;> simp [NewFunc, h]

/-- C8: resolving the foreign-interop package handle (`Program.python`)
never touches either flag by itself; the flag is set by the operations that
declare or perform a foreign call: `Package.pyFunc` always marks
`needPyInit`, and hence every completed foreign call through the bridge
(`Builder.pyCall`) leaves the flag set. -/
theorem python_frame_pyFunc_marks :
    (∀ p : AProgram, onOkP (python p) fun p' _ =>
      p'.needPyInit = p.needPyInit ∧ p'.needRuntime = p.needRuntime) ∧
    (∀ (pk : APackage) (name : String) (sig : Sig),
      ((pyFunc pk name sig).1).prog.needPyInit = true) ∧
    (∀ (pk : APackage) (s : Sig) (args : List Nat),
      onOkP (pyCall pk s args) fun pk' _ => pk'.prog.needPyInit = true) := by
  refine ⟨?_, pyFunc_prog_needPyInit, ?_⟩
  · intro p
    cases hpy : p.py with
    | some h => simp [python, hpy, onOkP]
    | none =>
      cases hpg : p.pyget with
      | some f => simp [python, hpy, hpg, onOkP]
      | none => simp [python, hpy, hpg, onOkP]
  · intro pk s args
    unfold pyCall
    split
    · cases hty : tyCallNoArg pk.prog with
      | error e => simp [hty, onOkP]
      | ok r => simp [hty, onOkP, pyFunc_prog_needPyInit]
    · cases hty : tyCallOneArg pk.prog with
      | error e => simp [hty, onOkP]
      | ok r =>
        cases args with
        | nil => simp [hty, onOkP]
        | cons a rest => simp [hty, onOkP, pyFunc_prog_needPyInit]
    · simp [onOkP]

/-- C10: an argument of `SetRuntime` / `SetPython` whose dynamic type is
neither `*types.Package` nor `func() *types.Package` matches no case of the
type switch: both setters return normally, report no error (they are total)
and leave the Program completely unchanged. -/
theorem setters_ignore_unsupported (p : AProgram) (tag : Nat) :
    SetRuntime p (.otherV tag) = p ∧ SetPython p (.otherV tag) = p :=
  ⟨rfl, rfl⟩

/-!  Helper lemmas about the Package symbol tables. -/

theorem rawType_typs_self (p : AProgram) (t : GoType) :
    assocFind ((rawType p t).1).typs t = some (rawType p t).2 := by
  cases h : assocFind p.typs t <;> simp [rawType, h, assocFind]

theorem rawType_after_rawType (p : AProgram) (t : GoType) :
    rawType ((rawType p t).1) t = ((rawType p t).1, (rawType p t).2) :=
  rawType_stable p t

theorem VoidPtr_after_rawType_after_VoidPtr (p : AProgram) (t : GoType) :
    VoidPtr ((rawType ((VoidPtr p).1) t).1) =
      ((rawType ((VoidPtr p).1) t).1, (VoidPtr p).2) := by
  apply VoidPtr_of_some
  rw [rawType_voidPtr]
  exact VoidPtr_self p

theorem NewFunc_prog (pk : APackage) (n : String) (s : Sig) :
    ((NewFunc pk n s).1).prog = pk.prog := by
  cases h : assocFind pk.fns n <;> simp [NewFunc, h]

theorem NewFunc_stable (pk : APackage) (n : String) (s : Sig) :
    NewFunc ((NewFunc pk n s).1) n s = NewFunc pk n s := by
  cases h : assocFind pk.fns n with
  | some fid => simp [NewFunc, h]
  | none => simp [NewFunc, h, assocFind]

theorem NewVar_stable (pk : APackage) (n : String) :
    NewVar ((NewVar pk n).1) n = NewVar pk n := by
  cases h : assocFind pk.vars n with
  | some vid => simp [NewVar, h]
  | none => simp [NewVar, h, assocFind]

/-- When the stub, the void-pointer type and the aggregate's type are all
already cached, `closureStub` is the identity on the Package state. -/
theorem closureStub_cached (pk : APackage) (t : GoType) (v : Closure)
    (fid : Nat) (hstub : assocFind pk.stubs v.name = some fid)
    (hvp : ∃ vt, pk.prog.voidPtr = some vt)
    (hty : ∃ tv, assocFind pk.prog.typs t = some tv) :
    closureStub pk t v = (pk, fid) := by
  obtain ⟨vt, hvp⟩ := hvp
  obtain ⟨tv, hty⟩ := hty
  simp [closureStub, VoidPtr, hvp, hstub, rawType, hty]

theorem closureStub_stable (pk : APackage) (t : GoType) (v : Closure) :
    closureStub ((closureStub pk t v).1) t v = closureStub pk t v := by
  cases hs : assocFind pk.stubs v.name with
  | some fid =>
    simp [closureStub, hs, VoidPtr_after_rawType_after_VoidPtr,
          rawType_after_rawType]
  | none =>
    simp [closureStub, hs, NewFunc_prog, assocFind,
          VoidPtr_after_rawType_after_VoidPtr, rawType_after_rawType]

/-- Number of module definitions of kind `k` named `n`. -/
def countDefs : List (DefKind × String) → DefKind → String → Nat
  | [], _, _ => 0
  | (k, m) :: rest, k', m' =>
    (if k = k' ∧ m = m' then 1 else 0) + countDefs rest k' m'

theorem countDefs_append (l1 l2 : List (DefKind × String)) (k : DefKind)
    (n : String) :
    countDefs (l1 ++ l2) k n = countDefs l1 k n + countDefs l2 k n := by
  induction l1 with
  | nil => simp [countDefs]
  | cons x l ih =>
    cases x
    simp [countDefs, ih, Nat.add_assoc]

/-- Coupling invariant between the module's emitted definitions and the
symbol tables: a function definition for a name is in the module exactly
when the `fns` table holds that name, and then exactly once; likewise for
globals and `vars`. -/
def TableInv (pk : APackage) : Prop :=
  ∀ n : String,
    countDefs pk.modDefs .funcDef n =
      (if assocFind pk.fns n = none then 0 else 1) ∧
    countDefs pk.modDefs .globalDef n =
      (if assocFind pk.vars n = none then 0 else 1)

theorem TableInv_NewPackage (p : AProgram) : TableInv (NewPackage p) := by
  intro n
  simp [NewPackage, countDefs, assocFind]

theorem TableInv_NewFunc (pk : APackage) (n0 : String) (s : Sig)
    (h : TableInv pk) : TableInv ((NewFunc pk n0 s).1) := by
  cases hf : assocFind pk.fns n0 with
  | some fid =>
    intro m
    simpa [NewFunc, hf] using h m
  | none =>
    intro m
    obtain ⟨h1, h2⟩ := h m
    by_cases e : n0 = m
    · subst e
      rw [hf] at h1
      simp only [if_pos rfl] at h1
      refine ⟨?_, ?_⟩
      · simp [NewFunc, hf, countDefs_append, countDefs, assocFind, h1]
      · simp [NewFunc, hf, countDefs_append, countDefs, h2]
    · refine ⟨?_, ?_⟩
      · simp [NewFunc, hf, countDefs_append, countDefs, assocFind, e, h1]
      · simp [NewFunc, hf, countDefs_append, countDefs, e, h2]

theorem TableInv_NewVar (pk : APackage) (n0 : String) (h : TableInv pk) :
    TableInv ((NewVar pk n0).1) := by
  cases hf : assocFind pk.vars n0 with
  | some vid =>
    intro m
    simpa [NewVar, hf] using h m
  | none =>
    intro m
    obtain ⟨h1, h2⟩ := h m
    by_cases e : n0 = m
    · subst e
      rw [hf] at h2
      simp only [if_pos rfl] at h2
      refine ⟨?_, ?_⟩
      · simp [NewVar, hf, countDefs_append, countDefs, h1]
      · simp [NewVar, hf, countDefs_append, countDefs, assocFind, h2]
    · refine ⟨?_, ?_⟩
      · simp [NewVar, hf, countDefs_append, countDefs, e, h1]
      · simp [NewVar, hf, countDefs_append, countDefs, assocFind, e, h2]

theorem TableInv_pyFunc (pk : APackage) (n0 : String) (s : Sig)
    (h : TableInv pk) : TableInv ((pyFunc pk n0 s).1) := by
  unfold pyFunc
  exact TableInv_NewFunc _ n0 s (fun m => h m)

theorem TableInv_closureStub (pk : APackage) (t : GoType) (v : Closure)
    (h : TableInv pk) : TableInv ((closureStub pk t v).1) := by
  cases hs : assocFind pk.stubs v.name with
  | some fid =>
    intro m
    simpa [closureStub, hs] using h m
  | none =>
    intro m
    have h1 : TableInv { pk with prog := (VoidPtr pk.prog).1 } :=
      fun m' => h m'
    have h2 := TableInv_NewFunc { pk with prog := (VoidPtr pk.prog).1 }
      (ClosureStub ++ v.name) (FuncAddCtx ctxParamTy v.sig) h1 m
    simpa [closureStub, hs] using h2

/-- A request against one of the Package symbol tables. -/
inductive Req where
  | newFuncR (name : String) (sig : Sig)
  | newVarR (name : String)
  | closureStubR (t : GoType) (v : Closure)
  | pyFuncR (name : String) (sig : Sig)

def applyReq (pk : APackage) : Req → APackage
  | .newFuncR n s => (NewFunc pk n s).1
  | .newVarR n => (NewVar pk n).1
  | .closureStubR t v => (closureStub pk t v).1
  | .pyFuncR n s => (pyFunc pk n s).1

def applyReqs (pk : APackage) : List Req → APackage
  | [] => pk
  | r :: rs => applyReqs (applyReq pk r) rs

theorem TableInv_applyReqs (pk : APackage) (h : TableInv pk)
    (reqs : List Req) : TableInv (applyReqs pk reqs) := by
  induction reqs generalizing pk with
  | nil => exact h
  | cons r rs ih =>
    refine ih (applyReq pk r) ?_
    cases r with
    | newFuncR n s => exact TableInv_NewFunc pk n s h
    | newVarR n => exact TableInv_NewVar pk n h
    | closureStubR t v => exact TableInv_closureStub pk t v h
    | pyFuncR n s => exact TableInv_pyFunc pk n s h

theorem TableInv_le_one (pk : APackage) (h : TableInv pk) (k : DefKind)
    (n : String) : countDefs pk.modDefs k n ≤ 1 := by
  obtain ⟨h1, h2⟩ := h n
  cases k with
  | funcDef => rw [h1]; split <;> omega
  | globalDef => rw [h2]; split <;> omega

/-- C2: per symbol table, requesting a name a second time returns exactly
the entry created by the first request and leaves the Package — including
the ghost constructor-invocation counter — unchanged (the constructor is not
invoked again); and starting from a fresh Package, any sequence of table
requests leaves at most one module definition per (kind, name). -/
theorem symbolTables_idempotent :
    (∀ (pk : APackage) (n : String) (s : Sig),
      NewFunc ((NewFunc pk n s).1) n s = NewFunc pk n s) ∧
    (∀ (pk : APackage) (n : String),
      NewVar ((NewVar pk n).1) n = NewVar pk n) ∧
    (∀ (pk : APackage) (t : GoType) (v : Closure),
      closureStub ((closureStub pk t v).1) t v = closureStub pk t v) ∧
    (∀ (p : AProgram) (reqs : List Req) (k : DefKind) (n : String),
      countDefs ((applyReqs (NewPackage p) reqs).modDefs) k n ≤ 1) :=
  ⟨NewFunc_stable, NewVar_stable, closureStub_stable,
   fun p reqs k n => TableInv_le_one _
     (TableInv_applyReqs _ (TableInv_NewPackage p) reqs) k n⟩

/-- Creation-path characterization of `closureStub`: on a fresh closure name
(and a stub name not previously declared as an ordinary function) the stub
is registered under the closure's name and its function object carries the
context-augmented signature, link-once linkage, and a tail-calling body
forwarding the stub parameters `1..N` — the positions of the original
parameters — returning void exactly for a zero-result closure. -/
theorem closureStub_create (pk : APackage) (t : GoType) (v : Closure)
    (hnew : assocFind pk.stubs v.name = none)
    (hfn : assocFind pk.fns (ClosureStub ++ v.name) = none) :
    assocFind ((closureStub pk t v).1).stubs v.name
      = some (closureStub pk t v).2 ∧
    assocFind ((closureStub pk t v).1).heap (closureStub pk t v).2 =
      some ⟨ClosureStub ++ v.name, FuncAddCtx ctxParamTy v.sig, .linkOnceAny,
            some ⟨(List.range v.sig.params.length).map (· + 1), true,
                  if v.sig.results.length = 0 then .retVoid else .retVal⟩⟩ := by
  constructor
  · simp [closureStub, hnew, NewFunc, hfn, assocFind]
  · simp [closureStub, hnew, NewFunc, hfn, setHeap, assocFind]

/-- Concrete instances used by the witnesses and counterexamples. -/
def pk0 : APackage := NewPackage NewProgram

def tInt : GoType := .basic intK

/-- A closure of arity 1 with exactly one result. -/
def fClosure : Closure := ⟨"f", ⟨[.basic intK], [.basic boolK]⟩⟩

/-- A closure with two results. -/
def gClosure : Closure := ⟨"g", ⟨[], [.basic boolK, .basic intK]⟩⟩

/-- The stub generated for `fClosure`. -/
def stubF : FnObj :=
  ⟨ClosureStub ++ "f", ⟨[ctxParamTy, .basic intK], [.basic boolK]⟩,
   .linkOnceAny, some ⟨[1], true, .retVal⟩⟩

/-- C3 counterexample: for the arity-1, one-result closure `f`, the
generated stub has 2 parameters but the opaque context parameter is the
FIRST parameter, not the last (the last parameter is the original `int`
parameter, which is not the context type), and the body forwards stub
parameter 1 — not stub parameter 0, i.e. not the "first N parameters" of
the stub. -/
theorem closureStub_ctx_not_trailing_cex :
    assocFind ((closureStub pk0 tInt fClosure).1).heap
        (closureStub pk0 tInt fClosure).2 = some stubF ∧
    stubF.sig.params.length = 2 ∧
    stubF.sig.params.getLast? ≠ some ctxParamTy ∧
    stubF.sig.params.head? = some ctxParamTy ∧
    stubF.body = some ⟨[1], true, .retVal⟩ ∧
    [1] ≠ List.range 1 := by
  refine ⟨by decide, by decide, by decide, by decide, by decide, by decide⟩

/-- C3 (corrected): for every closure of arity N, the generated stub has
N+1 parameters with the opaque context parameter as the FIRST (leading)
parameter and the N original parameters shifted to positions 1..N; the body
issues a tail call to the original closure forwarding the stub parameters
1..N (exactly the original parameters) and — per the result count — returns
the call's result for one result and void for zero results. -/
theorem closureStub_shape (pk : APackage) (t : GoType) (v : Closure)
    (hnew : assocFind pk.stubs v.name = none)
    (hfn : assocFind pk.fns (ClosureStub ++ v.name) = none) :
    assocFind ((closureStub pk t v).1).heap (closureStub pk t v).2 =
      some ⟨ClosureStub ++ v.name,
            ⟨ctxParamTy :: v.sig.params, v.sig.results⟩, .linkOnceAny,
            some ⟨(List.range v.sig.params.length).map (· + 1), true,
                  if v.sig.results.length = 0 then .retVoid else .retVal⟩⟩ ∧
    (ctxParamTy :: v.sig.params).length = v.sig.params.length + 1 ∧
    (ctxParamTy :: v.sig.params).head? = some ctxParamTy :=
  ⟨(closureStub_create pk t v hnew hfn).2, by simp, rfl⟩

theorem closureStub_shape_witness :
    assocFind pk0.stubs fClosure.name = none ∧
    assocFind pk0.fns (ClosureStub ++ fClosure.name) = none ∧
    (assocFind ((closureStub pk0 tInt fClosure).1).heap
        (closureStub pk0 tInt fClosure).2 =
      some ⟨ClosureStub ++ fClosure.name,
            ⟨ctxParamTy :: fClosure.sig.params, fClosure.sig.results⟩,
            .linkOnceAny,
            some ⟨(List.range fClosure.sig.params.length).map (· + 1), true,
                  if fClosure.sig.results.length = 0 then RetKind.retVoid
                  else RetKind.retVal⟩⟩ ∧
     (ctxParamTy :: fClosure.sig.params).length =
       fClosure.sig.params.length + 1 ∧
     (ctxParamTy :: fClosure.sig.params).head? = some ctxParamTy) :=
  ⟨rfl, rfl, closureStub_shape pk0 tInt fClosure rfl rfl⟩

/-- The stub generated for the two-result closure `g`. -/
def stubG : FnObj :=
  ⟨ClosureStub ++ "g", ⟨[ctxParamTy], [.basic boolK, .basic intK]⟩,
   .linkOnceAny, some ⟨[], true, .retVal⟩⟩

/-- C4 counterexample: for the closure `g` whose signature has two results,
stub creation does NOT fail with an Unsupported-Feature error — the Go
function has no error path at all (the multi-result case is the `default:`
switch branch, marked `TODO(xsw)` in the source): a stub is produced,
registered in the `stubs` table, and returns the call's value. -/
theorem closureStub_twoResults_no_failure_cex :
    gClosure.sig.results.length = 2 ∧
    assocFind ((closureStub pk0 tInt gClosure).1).stubs "g" =
      some (closureStub pk0 tInt gClosure).2 ∧
    assocFind ((closureStub pk0 tInt gClosure).1).heap
      (closureStub pk0 tInt gClosure).2 = some stubG := by
  refine ⟨by decide, by decide, by decide⟩

/-- C4 (corrected): for every closure whose underlying signature has more
than one result, stub creation does not fail fast; the `default:` branch
creates and registers the stub, whose body returns the forwarded call's
(aggregate) value. -/
theorem closureStub_multiResult_created (pk : APackage) (t : GoType)
    (v : Closure) (h2 : 2 ≤ v.sig.results.length)
    (hnew : assocFind pk.stubs v.name = none)
    (hfn : assocFind pk.fns (ClosureStub ++ v.name) = none) :
    assocFind ((closureStub pk t v).1).stubs v.name
      = some (closureStub pk t v).2 ∧
    assocFind ((closureStub pk t v).1).heap (closureStub pk t v).2 =
      some ⟨ClosureStub ++ v.name,
            ⟨ctxParamTy :: v.sig.params, v.sig.results⟩, .linkOnceAny,
            some ⟨(List.range v.sig.params.length).map (· + 1), true,
                  .retVal⟩⟩ := by
  have hc := closureStub_create pk t v hnew hfn
  have hz : ¬ v.sig.results.length = 0 := by omega
  refine ⟨hc.1, ?_⟩
  rw [hc.2]
  simp [FuncAddCtx, hz]

theorem closureStub_multiResult_created_witness :
    2 ≤ gClosure.sig.results.length ∧
    assocFind pk0.stubs gClosure.name = none ∧
    assocFind pk0.fns (ClosureStub ++ gClosure.name) = none ∧
    (assocFind ((closureStub pk0 tInt gClosure).1).stubs gClosure.name
      = some (closureStub pk0 tInt gClosure).2 ∧
    assocFind ((closureStub pk0 tInt gClosure).1).heap
        (closureStub pk0 tInt gClosure).2 =
      some ⟨ClosureStub ++ gClosure.name,
            ⟨ctxParamTy :: gClosure.sig.params, gClosure.sig.results⟩,
            .linkOnceAny,
            some ⟨(List.range gClosure.sig.params.length).map (· + 1), true,
                  RetKind.retVal⟩⟩) :=
  ⟨by decide, rfl, rfl,
   closureStub_multiResult_created pk0 tInt gClosure (by decide) rfl rfl⟩

/-!  Flag behaviour of the Program-level operations. -/

theorem NewFunc_fns_self (pk : APackage) (n : String) (s : Sig) :
    assocFind ((NewFunc pk n s).1).fns n = some (NewFunc pk n s).2 := by
  cases h : assocFind pk.fns n <;> simp [NewFunc, h, assocFind]

theorem pyFunc_fns_self (pk : APackage) (n : String) (s : Sig) :
    assocFind ((pyFunc pk n s).1).fns n = some (pyFunc pk n s).2 := by
  unfold pyFunc
  exact NewFunc_fns_self _ n s

theorem python_fst_flags (p : AProgram) (r : AProgram × Nat)
    (h : python p = .ok r) :
    r.1.needPyInit = p.needPyInit ∧ r.1.needRuntime = p.needRuntime := by
  cases hpy : p.py with
  | some x =>
    simp [python, hpy] at h
    subst h
    exact ⟨rfl, rfl⟩
  | none =>
    cases hpg : p.pyget with
    | none => simp [python, hpy, hpg] at h
    | some f =>
      simp [python, hpy, hpg] at h
      subst h
      exact ⟨rfl, rfl⟩

theorem PyObjectPtr_fst_flags (p : AProgram) (r : AProgram × TypeV)
    (h : PyObjectPtr p = .ok r) :
    r.1.needPyInit = p.needPyInit ∧ r.1.needRuntime = p.needRuntime := by
  cases hp : p.pyObjPtr with
  | some tv =>
    simp [PyObjectPtr, hp] at h
    subst h
    exact ⟨rfl, rfl⟩
  | none =>
    cases hpy : python p with
    | error e => simp [PyObjectPtr, hp, hpy] at h
    | ok r1 =>
      obtain ⟨hA, hB⟩ := python_fst_flags p r1 hpy
      simp [PyObjectPtr, hp, hpy] at h
      subst h
      obtain ⟨hf1, hf2⟩ := rawType_flags r1.1 (.ptr (.named r1.2 "Object"))
      exact ⟨hf2.trans hA, hf1.trans hB⟩

/-- The Program-level operations of the source that mutate the shared
`aProgram` state; `pyInitMarkOp` is the `needPyInit` assignment performed by
`Package.pyFunc`. A panicking operation aborts the run, so the step keeps
the pre-panic state. -/
inductive ProgOp where
  | setPythonOp (v : AnyVal)
  | setRuntimeOp (v : AnyVal)
  | runtimeOp
  | pythonOp
  | rawTypeOp (t : GoType)
  | boolOp
  | voidPtrOp
  | pyObjectPtrOp
  | tyCallNoArgOp
  | tyCallOneArgOp
  | pyInitMarkOp

def progStep (p : AProgram) : ProgOp → AProgram
  | .setPythonOp v => SetPython p v
  | .setRuntimeOp v => SetRuntime p v
  | .runtimeOp => match runtime p with | .ok r => r.1 | .error _ => p
  | .pythonOp => match python p with | .ok r => r.1 | .error _ => p
  | .rawTypeOp t => (rawType p t).1
  | .boolOp => (BoolType p).1
  | .voidPtrOp => (VoidPtr p).1
  | .pyObjectPtrOp => match PyObjectPtr p with | .ok r => r.1 | .error _ => p
  | .tyCallNoArgOp => match tyCallNoArg p with | .ok r => r.1 | .error _ => p
  | .tyCallOneArgOp => match tyCallOneArg p with | .ok r => r.1 | .error _ => p
  | .pyInitMarkOp => { p with needPyInit := true }

theorem progStep_needPyInit (p : AProgram) (op : ProgOp)
    (h : p.needPyInit = true) : (progStep p op).needPyInit = true := by
  cases op with
  | setPythonOp v => cases v <;> simp [progStep, SetPython, h]
  | setRuntimeOp v => cases v <;> simp [progStep, SetRuntime, h]
  | runtimeOp =>
    cases hrt : p.rt with
    | some x => simp [progStep, runtime, hrt, h]
    | none =>
      cases hrg : p.rtget with
      | none => simp [progStep, runtime, hrt, hrg, h]
      | some f => simp [progStep, runtime, hrt, hrg, h]
  | pythonOp =>
    cases hpy : python p with
    | error e => simp [progStep, hpy, h]
    | ok r => simpa [progStep, hpy, (python_fst_flags p r hpy).1] using h
  | rawTypeOp t => simpa [progStep, (rawType_flags p t).2] using h
  | boolOp =>
    cases hb : p.boolTy with
    | some tv => simp [progStep, BoolType, hb, h]
    | none =>
      simpa [progStep, BoolType, hb, (rawType_flags p (.basic boolK)).2]
        using h
  | voidPtrOp =>
    cases hb : p.voidPtr with
    | some tv => simp [progStep, VoidPtr, hb, h]
    | none =>
      simpa [progStep, VoidPtr, hb,
        (rawType_flags p (.basic unsafePointerK)).2] using h
  | pyObjectPtrOp =>
    cases hp : PyObjectPtr p with
    | error e => simp [progStep, hp, h]
    | ok r => simpa [progStep, hp, (PyObjectPtr_fst_flags p r hp).1] using h
  | tyCallNoArgOp =>
    cases hc : p.callNoArg with
    | some s => simp [progStep, tyCallNoArg, hc, h]
    | none =>
      cases hp : PyObjectPtr p with
      | error e => simp [progStep, tyCallNoArg, hc, hp, h]
      | ok r =>
        simpa [progStep, tyCallNoArg, hc, hp,
          (PyObjectPtr_fst_flags p r hp).1] using h
  | tyCallOneArgOp =>
    cases hc : p.callOneArg with
    | some s => simp [progStep, tyCallOneArg, hc, h]
    | none =>
      cases hp : PyObjectPtr p with
      | error e => simp [progStep, tyCallOneArg, hc, hp, h]
      | ok r =>
        simpa [progStep, tyCallOneArg, hc, hp,
          (PyObjectPtr_fst_flags p r hp).1] using h
  | pyInitMarkOp => simp [progStep]

theorem progStep_needRuntime (p : AProgram) (op : ProgOp)
    (h : p.needRuntime = true) : (progStep p op).needRuntime = true := by
  cases op with
  | setPythonOp v => cases v <;> simp [progStep, SetPython, h]
  | setRuntimeOp v => cases v <;> simp [progStep, SetRuntime, h]
  | runtimeOp =>
    cases hrt : p.rt with
    | some x => simp [progStep, runtime, hrt]
    | none =>
      cases hrg : p.rtget with
      | none => simp [progStep, runtime, hrt, hrg, h]
      | some f => simp [progStep, runtime, hrt, hrg]
  | pythonOp =>
    cases hpy : python p with
    | error e => simp [progStep, hpy, h]
    | ok r => simpa [progStep, hpy, (python_fst_flags p r hpy).2] using h
  | rawTypeOp t => simpa [progStep, (rawType_flags p t).1] using h
  | boolOp =>
    cases hb : p.boolTy with
    | some tv => simp [progStep, BoolType, hb, h]
    | none =>
      simpa [progStep, BoolType, hb, (rawType_flags p (.basic boolK)).1]
        using h
  | voidPtrOp =>
    cases hb : p.voidPtr with
    | some tv => simp [progStep, VoidPtr, hb, h]
    | none =>
      simpa [progStep, VoidPtr, hb,
        (rawType_flags p (.basic unsafePointerK)).1] using h
  | pyObjectPtrOp =>
    cases hp : PyObjectPtr p with
    | error e => simp [progStep, hp, h]
    | ok r => simpa [progStep, hp, (PyObjectPtr_fst_flags p r hp).2] using h
  | tyCallNoArgOp =>
    cases hc : p.callNoArg with
    | some s => simp [progStep, tyCallNoArg, hc, h]
    | none =>
      cases hp : PyObjectPtr p with
      | error e => simp [progStep, tyCallNoArg, hc, hp, h]
      | ok r =>
        simpa [progStep, tyCallNoArg, hc, hp,
          (PyObjectPtr_fst_flags p r hp).2] using h
  | tyCallOneArgOp =>
    cases hc : p.callOneArg with
    | some s => simp [progStep, tyCallOneArg, hc, h]
    | none =>
      cases hp : PyObjectPtr p with
      | error e => simp [progStep, tyCallOneArg, hc, hp, h]
      | ok r =>
        simpa [progStep, tyCallOneArg, hc, hp,
          (PyObjectPtr_fst_flags p r hp).2] using h
  | pyInitMarkOp => simp [progStep, h]

/-- C5 counterexample: at a Program whose `needPyInit` flag is set,
`NewPackage` does NOT reset both per-package flags — it resets only
`needRuntime`, while `needPyInit` stays true in the new Package. -/
theorem newPackage_pyInit_not_reset_cex :
    (NewPackage { NewProgram with needPyInit := true }).prog.needPyInit
      = true ∧
    (NewPackage { NewProgram with needPyInit := true }).prog.needRuntime
      = false :=
  ⟨rfl, rfl⟩

/-- C5 (corrected): creating a new Package from a Program resets
`needRuntime` — and only `needRuntime` — to false; `needPyInit` keeps its
previous value. Once set true, each flag remains true under every
Program-level operation of the source (so `needRuntime` stays true until
the next `NewPackage`, and `needPyInit` even survives `NewPackage`). -/
theorem flags_reset_and_monotone :
    (∀ p : AProgram, (NewPackage p).prog.needRuntime = false) ∧
    (∀ p : AProgram, (NewPackage p).prog.needPyInit = p.needPyInit) ∧
    (∀ (p : AProgram) (op : ProgOp), p.needRuntime = true →
      (progStep p op).needRuntime = true) ∧
    (∀ (p : AProgram) (op : ProgOp), p.needPyInit = true →
      (progStep p op).needPyInit = true) :=
  ⟨fun _ => rfl, fun _ => rfl, progStep_needRuntime, progStep_needPyInit⟩

theorem flags_reset_and_monotone_witness :
    ({ NewProgram with needRuntime := true } : AProgram).needRuntime
      = true ∧
    (progStep { NewProgram with needRuntime := true } .pythonOp).needRuntime
      = true ∧
    ({ NewProgram with needPyInit := true } : AProgram).needPyInit = true ∧
    (progStep { NewProgram with needPyInit := true } .runtimeOp).needPyInit
      = true :=
  ⟨rfl, flags_reset_and_monotone.2.2.1 _ .pythonOp rfl, rfl,
   flags_reset_and_monotone.2.2.2 _ .runtimeOp rfl⟩

/-!  The foreign-call bridge. -/

def pyProg : AProgram := { NewProgram with py := some 3 }

def pk1 : APackage := NewPackage pyProg

def sigNoParams : Sig := ⟨[], []⟩

def sigOneParam : Sig := ⟨[.basic intK], []⟩

def sigTwoParams : Sig := ⟨[.basic intK, .basic intK], []⟩

/-- C6 counterexample: a foreign call whose callee signature has argument
count 2 is NOT supported: `pyCall` hits the `default:` branch and panics
(`panic("todo")`) instead of dispatching through a dedicated two-argument
thunk. -/
theorem pyCall_twoArgs_unsupported_cex :
    sigTwoParams.params.length = 2 ∧
    pyCall pk1 sigTwoParams [7, 8] = .error .todoPanic :=
  ⟨rfl, rfl⟩

/-- C6 (corrected): the foreign-call bridge supports exactly the argument
counts 0 and 1, each dispatched through its dedicated lazily-declared
Package-scoped thunk (`PyObject_CallNoArg` / `PyObject_CallOneArg`, found in
the `fns` table after a completed call, with the Package marked as needing
foreign initialization); every argument count of 2 or more fails fast with
`panic("todo")` rather than guessing a convention. -/
theorem pyCall_arity (pk : APackage) (s : Sig) (args : List Nat) :
    (2 ≤ s.params.length → pyCall pk s args = .error .todoPanic) ∧
    (s.params.length = 0 → onOkP (pyCall pk s args) fun pk' fid =>
      assocFind pk'.fns "PyObject_CallNoArg" = some fid ∧
      pk'.prog.needPyInit = true) ∧
    (s.params.length = 1 → onOkP (pyCall pk s args) fun pk' fid =>
      assocFind pk'.fns "PyObject_CallOneArg" = some fid ∧
      pk'.prog.needPyInit = true) := by
  refine ⟨?_, ?_, ?_⟩
  · intro h
    obtain ⟨k, hk⟩ : ∃ k, s.params.length = k + 2 :=
      ⟨s.params.length - 2, by omega⟩
    simp [pyCall, hk]
  · intro h
    cases hty : tyCallNoArg pk.prog with
    | error e => simp [pyCall, h, hty, onOkP]
    | ok r1 =>
      simp [pyCall, h, hty, onOkP, pyFunc_fns_self, pyFunc_prog_needPyInit]
  · intro h
    cases hty : tyCallOneArg pk.prog with
    | error e => simp [pyCall, h, hty, onOkP]
    | ok r1 =>
      cases args with
      | nil => simp [pyCall, h, hty, onOkP]
      | cons a rest =>
        simp [pyCall, h, hty, onOkP, pyFunc_fns_self, pyFunc_prog_needPyInit]

theorem pyCall_arity_witness :
    (2 ≤ sigTwoParams.params.length ∧
      pyCall pk1 sigTwoParams [7, 8] = .error .todoPanic) ∧
    (sigNoParams.params.length = 0 ∧
      onOkP (pyCall pk1 sigNoParams []) fun pk' fid =>
        assocFind pk'.fns "PyObject_CallNoArg" = some fid ∧
        pk'.prog.needPyInit = true) ∧
    (sigOneParam.params.length = 1 ∧
      onOkP (pyCall pk1 sigOneParam [5]) fun pk' fid =>
        assocFind pk'.fns "PyObject_CallOneArg" = some fid ∧
        pk'.prog.needPyInit = true) :=
  ⟨⟨by decide, (pyCall_arity pk1 sigTwoParams [7, 8]).1 (by decide)⟩,
   ⟨rfl, (pyCall_arity pk1 sigNoParams []).2.1 rfl⟩,
   ⟨rfl, (pyCall_arity pk1 sigOneParam [5]).2.2 rfl⟩⟩

/-!  The build driver. -/

/-- C9: a requested build mode with exactly one root package loaded for the
requested patterns resolves to install mode; with more than one it stays
build; and exactly in build mode the per-package `.ll` emission is skipped
for every package (in every other mode it happens for every package except
the artifact-less pseudo-package `unsafe`). -/
theorem buildMode_resolution :
    effectiveMode .modeBuild 1 = .modeInstall ∧
    (∀ n : Nat, 2 ≤ n → effectiveMode .modeBuild n = .modeBuild) ∧
    (∀ path : String, buildPkgWritesLL path .modeBuild = false) ∧
    (∀ (m : Mode) (path : String), m ≠ .modeBuild → path ≠ "unsafe" →
      buildPkgWritesLL path m = true) := by
  refine ⟨rfl, ?_, ?_, ?_⟩
  · intro n h
    have hne : n ≠ 1 := by omega
    simp [effectiveMode, hne]
  · intro path
    cases h : path == "unsafe"
    · simp only [buildPkgWritesLL, h, needLLFile, Bool.ite_eq_false]
      rfl
    · simp [buildPkgWritesLL, h]
  · intro m path hm hp
    have h1 : (path == "unsafe") = false := by simp [hp]
    simp [buildPkgWritesLL, h1, needLLFile]
    cases m with
    | modeBuild => exact absurd rfl hm
    | modeInstall => rfl
    | modeRun => rfl

theorem buildMode_resolution_witness :
    (2 ≤ 2 ∧ effectiveMode .modeBuild 2 = .modeBuild) ∧
    buildPkgWritesLL "m" .modeBuild = false ∧
    (Mode.modeInstall ≠ .modeBuild ∧ ("m" : String) ≠ "unsafe" ∧
      buildPkgWritesLL "m" .modeInstall = true) :=
  ⟨⟨by omega, buildMode_resolution.2.1 2 (by omega)⟩,
   buildMode_resolution.2.2.1 "m",
   ⟨by decide, by decide,
    buildMode_resolution.2.2.2 .modeInstall "m" (by decide) (by decide)⟩⟩
